import Mathlib

/-!
Shallow embedding of the Flirrt.ai load-testing and quality-scoring harness
(`src/Backend/production_load_testing.py`, `src/Tests/dataset_builder.py`,
`src/Tests/iterative_testing_system.py`) together with theorems settling the
specification claims about it.

Modelling conventions:
* Python floats are modelled as exact rationals (`ℚ`).  All numeric literals
  of the source (0.3, 0.95, ...) are exact decimal fractions, so comparisons
  and the tier tables coincide with the float behaviour on the inputs the
  claims are about.  Python `int(n * 0.95)` is modelled as `n * 95 / 100`
  (natural floor division), which agrees with the float computation for all
  realistic sample sizes.
* Python strings are Lean `String`s; `a in b` (substring test) is modelled on
  the underlying character lists; `str.lower()` maps `Char.toLower` over the
  characters (ASCII case folding, which covers every string the rubric uses).
* `round(x, n)` is modelled as `round (x * 10^n) / 10^n`.  Lean's `round`
  rounds half away from even midpoints slightly differently from Python's
  banker rounding; the two differ only on exact half-way ties, which no claim
  depends on.  Rounding applied by the source purely for display (the 2- and
  3-decimal rounding of report fields) is omitted where a claim is about the
  computed quantity itself.
* Wall-clock effects (`time.time`, `time.sleep`), printing, JSON persistence
  and the thread pool are not modelled; the per-request elapsed times and the
  provider outcome are supplied as explicit oracles, and the results of the
  concurrent workers are collected in worker order (the source collects them
  in completion order; no claim depends on inter-worker order).
-/

namespace Flirrt

/-- Python `needle in haystack` substring membership on strings. -/
def pyIn (needle haystack : String) : Bool :=
  decide (needle.data <:+: haystack.data)

/-- Python `s.lower()` (per-character ASCII case folding). -/
def pyLower (s : String) : String :=
  ⟨s.data.map Char.toLower⟩

/-- Helper of `pySplitWs`: walk the characters with an accumulator of the
current (reversed) word. -/
def wsSplit : List Char → List Char → List String
  | [], acc => if acc = [] then [] else [⟨acc.reverse⟩]
  | c :: cs, acc =>
      if c.isWhitespace then
        if acc = [] then wsSplit cs [] else ⟨acc.reverse⟩ :: wsSplit cs []
      else wsSplit cs (c :: acc)

/-- Python `s.split()`: split on whitespace runs, dropping empty pieces. -/
def pySplitWs (s : String) : List String :=
  wsSplit s.data []

/-- Python `sum(1 for p in phrases if p in text)`. -/
def countHits (phrases : List String) (text : String) : Nat :=
  phrases.countP (fun p => pyIn p text)

/-- Python `round(x, ndigits)` (see the module comment on tie-breaking). -/
def pyRound (x : ℚ) (ndigits : Nat) : ℚ :=
  ((round (x * (10 : ℚ) ^ ndigits) : ℤ) : ℚ) / (10 : ℚ) ^ ndigits

/-! ## QualityScorer: `FlirrtDatasetBuilder.quality_score_suggestion`
(`src/Tests/dataset_builder.py`, lines 128-181) -/

/-- Per-criterion scores of the 5-criterion "basic" rubric mode. -/
structure BasicScores where
  relevance : ℚ
  creativity : ℚ
  appropriateness : ℚ
  engagement : ℚ
  specificity : ℚ
deriving DecidableEq, Repr

/-- The fixed generic-phrase list of the creativity criterion.  The source
literal `"what's up"` is spelled with `Char.ofNat 39` for the apostrophe. -/
def generic_phrases : List String :=
  ["hey", "hi", "how are you", "what" ++ String.singleton (Char.ofNat 39) ++ "s up", "nice pics"]

/-- The fixed flagged-word list of the appropriateness criterion. -/
def inappropriate_words : List String :=
  ["sexy", "hot", "body", "bed", "night"]

/-- The fixed indicator list of the engagement criterion. -/
def engagement_indicators : List String :=
  ["?", "what", "how", "where", "when", "tell me"]

/-- `FlirrtDatasetBuilder.quality_score_suggestion`: score one suggestion text
against the rubric's `expected_themes` (the only rubric field the source
reads, via `context.get("expected_themes", [])`). -/
def quality_score_suggestion (suggestion : String) (expected_themes : List String) :
    BasicScores :=
  let suggestion_lower := pyLower suggestion
  let theme_matches := expected_themes.countP (fun theme => pyIn theme suggestion_lower)
  let relevance := min ((theme_matches : ℚ) / ((max expected_themes.length 1 : Nat) : ℚ)) 1
  let generic_count := countHits generic_phrases suggestion_lower
  let creativity := max 0 (1 - (generic_count : ℚ) * (3 / 10))
  let inappropriate_count := countHits inappropriate_words suggestion_lower
  let appropriateness := max 0 (1 - (inappropriate_count : ℚ) * (1 / 2))
  let engagement_count := countHits engagement_indicators suggestion_lower
  let engagement := min ((engagement_count : ℚ) * (3 / 10)) 1
  let specificity : ℚ :=
    if (pySplitWs suggestion).length > 10 then 8 / 10
    else if (pySplitWs suggestion).length > 5 then 5 / 10
    else 2 / 10
  { relevance := relevance, creativity := creativity, appropriateness := appropriateness,
    engagement := engagement, specificity := specificity }

/-- The basic-mode weight table of `FlirrtDatasetBuilder.calculate_overall_score`. -/
def basic_weights : List (String × ℚ) :=
  [("relevance", 30 / 100), ("creativity", 20 / 100), ("appropriateness", 25 / 100),
    ("engagement", 15 / 100), ("specificity", 10 / 100)]

/-- Lookup `scores[metric]` for the basic criterion set. -/
def basicScoreOf (s : BasicScores) (metric : String) : ℚ :=
  if metric = "relevance" then s.relevance
  else if metric = "creativity" then s.creativity
  else if metric = "appropriateness" then s.appropriateness
  else if metric = "engagement" then s.engagement
  else if metric = "specificity" then s.specificity
  else 0

/-- `FlirrtDatasetBuilder.calculate_overall_score`: weighted sum over the
basic weight table, rounded to 3 decimals as in the source. -/
def calculate_overall_score (s : BasicScores) : ℚ :=
  pyRound ((basic_weights.map (fun mw => basicScoreOf s mw.1 * mw.2)).sum) 3

/-! ## Enhanced scoring: `IterativeTestingSystem`
(`src/Tests/iterative_testing_system.py`, lines 109-262) -/

/-- `AnalysisContext` of `src/Backend/advanced_ai_service.py` (lines 26-32). -/
structure AnalysisContext where
  user_gender : String
  target_gender : String
  age_range : String
  app_type : String
  current_text : String := ""
  conversation_history : List String := []
deriving DecidableEq, Repr

/-- Positive indicators selected when `context.user_gender == "male"`. -/
def male_positive_indicators : List String :=
  ["question", "?", "what", "how", "tell me", "love", "amazing", "interesting"]

/-- Negative indicators selected when `context.user_gender == "male"`. -/
def male_negative_indicators : List String :=
  ["hey", "hi", "sup", "sexy", "hot"]

/-- Positive indicators of the `else` (female) branch. -/
def female_positive_indicators : List String :=
  ["funny", "laugh", "haha", "love", "interesting", "tell me", "?"]

/-- Negative indicators of the `else` (female) branch. -/
def female_negative_indicators : List String :=
  ["hey", "hi", "cute", "handsome"]

/-- `IterativeTestingSystem.score_gender_appropriateness` (lines 220-238):
`min(positive_count * 0.3, 1.0) - negative_count * 0.2`, clamped to [0, 1].
The indicator lists are chosen by `user_gender == "male"`; every other
gender string falls into the female branch. -/
def score_gender_appropriateness (suggestion_text : String) (context : AnalysisContext) : ℚ :=
  let positive_indicators :=
    if context.user_gender = "male" then male_positive_indicators
    else female_positive_indicators
  let negative_indicators :=
    if context.user_gender = "male" then male_negative_indicators
    else female_negative_indicators
  let positive_count := countHits positive_indicators suggestion_text
  let negative_count := countHits negative_indicators suggestion_text
  let score := min ((positive_count : ℚ) * (3 / 10)) 1 - (negative_count : ℚ) * (2 / 10)
  max 0 (min 1 score)

/-- `IterativeTestingSystem.score_context_awareness` (lines 240-262): base
0.5, +0.1 for an app-type mention, +0.1 for an age-bucket vocabulary match,
capped at 1.  `scenario_age_range` models `scenario.get("age_range", "25-30")`. -/
def score_context_awareness (suggestion_text : String) (context : AnalysisContext)
    (scenario_age_range : Option String) : ℚ :=
  let score : ℚ := 1 / 2
  let score := if pyIn (pyLower context.app_type) suggestion_text then score + 1 / 10 else score
  let age_range := scenario_age_range.getD "25-30"
  let score :=
    if pyIn "20-25" age_range then
      if ["cool", "awesome", "vibe"].any (fun word => pyIn word suggestion_text) then
        score + 1 / 10
      else score
    else if pyIn "35+" age_range then
      if ["interesting", "fascinating", "appreciate"].any (fun word => pyIn word suggestion_text) then
        score + 1 / 10
      else score
    else score
  min 1 score

/-- The 7-criterion score dictionary `{**basic_scores, **enhanced_scores}` of
`IterativeTestingSystem.enhanced_quality_scoring` (line 151). -/
structure CombinedScores where
  relevance : ℚ
  creativity : ℚ
  appropriateness : ℚ
  engagement : ℚ
  specificity : ℚ
  gender_appropriateness : ℚ
  context_awareness : ℚ
deriving DecidableEq, Repr

/-- Merge the basic scores with the two enhanced criteria
(`calculate_enhanced_scores`, lines 201-218). -/
def combineScores (b : BasicScores) (gender_score context_score : ℚ) : CombinedScores :=
  { relevance := b.relevance, creativity := b.creativity,
    appropriateness := b.appropriateness, engagement := b.engagement,
    specificity := b.specificity, gender_appropriateness := gender_score,
    context_awareness := context_score }

/-- The enhanced-mode weight table of `enhanced_quality_scoring` (lines 154-162). -/
def enhanced_weights : List (String × ℚ) :=
  [("relevance", 25 / 100), ("creativity", 15 / 100), ("appropriateness", 20 / 100),
    ("engagement", 15 / 100), ("specificity", 10 / 100),
    ("gender_appropriateness", 10 / 100), ("context_awareness", 5 / 100)]

/-- Lookup `combined_scores.get(metric, 0)`. -/
def combinedScoreOf (cs : CombinedScores) (metric : String) : ℚ :=
  if metric = "relevance" then cs.relevance
  else if metric = "creativity" then cs.creativity
  else if metric = "appropriateness" then cs.appropriateness
  else if metric = "engagement" then cs.engagement
  else if metric = "specificity" then cs.specificity
  else if metric = "gender_appropriateness" then cs.gender_appropriateness
  else if metric = "context_awareness" then cs.context_awareness
  else 0

/-- The per-suggestion weighted overall score of `enhanced_quality_scoring`
(lines 164-167): `sum(combined_scores.get(metric, 0) * weight)`. -/
def suggestion_weighted_score (cs : CombinedScores) : ℚ :=
  (enhanced_weights.map (fun mw => combinedScoreOf cs mw.1 * mw.2)).sum

/-! ## Load-test engine: `ProductionLoadTester`
(`src/Backend/production_load_testing.py`) -/

/-- `LoadTestConfig` dataclass (lines 25-32). -/
structure LoadTestConfig where
  concurrent_users : Nat
  requests_per_user : Nat
  test_duration_seconds : Nat
  ramp_up_seconds : ℚ
  target_response_time : ℚ
  target_success_rate : ℚ
deriving DecidableEq, Repr

/-- The result dictionary of the provider call `ai_service.hybrid_analysis`:
the fields `single_request_test` reads (`final_suggestions`, `models_used`).
`final_suggestions = none` models a dictionary lacking the key. -/
structure AnalysisResult where
  final_suggestions : Option (List String)
  models_used : List String
deriving DecidableEq, Repr

/-- Outcome of one provider call: a result dictionary, or a raised exception
carrying its message (`str(e)`). -/
inductive ProviderOutcome where
  | ok (result : AnalysisResult)
  | error (msg : String)
deriving DecidableEq, Repr

/-- The per-request result dictionary built by `single_request_test`
(lines 138-158).  The wall-clock `timestamp` field is not modelled.
`user_id` is absent (`none`) until `user_simulation` adds it. -/
structure RequestResult where
  request_id : String
  response_time : ℚ
  success : Bool
  error : Option String
  suggestions_count : Nat
  models_used : List String
  user_id : Option Nat := none
deriving DecidableEq, Repr

/-- `ProductionLoadTester.single_request_test` (lines 127-158).  The provider
call is supplied as an already-determined `ProviderOutcome`; `elapsed` is the
wall-clock duration of the call (`end_time - start_time`), the same value on
the success path and on the exception path.  The `try/except` of the source
is the match: every outcome, including a raised exception, is converted into
a returned `RequestResult` — the function is total and never re-raises. -/
def single_request_test (request_id : String) (outcome : ProviderOutcome)
    (elapsed : ℚ) : RequestResult :=
  match outcome with
  | ProviderOutcome.ok result =>
      { request_id := request_id
        response_time := elapsed
        success := result.final_suggestions.isSome
          && decide ((result.final_suggestions.getD []).length > 0)
        error := none
        suggestions_count := (result.final_suggestions.getD []).length
        models_used := result.models_used }
  | ProviderOutcome.error msg =>
      { request_id := request_id
        response_time := elapsed
        success := false
        error := some msg
        suggestions_count := 0
        models_used := [] }

/-- The f-string `f"user_{user_id}_req_{request_num}"` of line 175. -/
def requestIdFor (user_id request_num : Nat) : String :=
  "user_" ++ toString user_id ++ "_req_" ++ toString request_num

/-- `ProductionLoadTester.user_simulation` (lines 160-183): one worker issues
`requests_per_user` sequential requests, tagging each result with its own
`user_id`.  The provider outcome and elapsed time of request `k` of worker
`i` are supplied by the oracles `provider i k` and `elapsed i k` (the source
draws a pseudo-random context and calls the live service).  The ramp-up sleep
and pacing sleeps only affect wall-clock time and are not modelled. -/
def user_simulation (provider : Nat → Nat → ProviderOutcome) (elapsed : Nat → Nat → ℚ)
    (user_id : Nat) (config : LoadTestConfig) : List RequestResult :=
  (List.range config.requests_per_user).map (fun request_num =>
    let result := single_request_test (requestIdFor user_id request_num)
      (provider user_id request_num) (elapsed user_id request_num)
    { result with user_id := some user_id })

/-- The `all_results` collection of `run_load_test` (lines 196-222): the
concatenation of every worker's results.  The source gathers them in
completion order via `as_completed`; worker order is used here (no claim
depends on inter-worker order). -/
def collectResults (provider : Nat → Nat → ProviderOutcome) (elapsed : Nat → Nat → ℚ)
    (config : LoadTestConfig) : List RequestResult :=
  ((List.range config.concurrent_users).map
    (fun user_id => user_simulation provider elapsed user_id config)).flatten

/-- Possible outcomes of `run_load_test`.  `configRejected` is the behaviour
the specification's error-handling section prescribes for zero-valued
configurations; the source has no such path and never produces it.
`zeroDivisionError` is the unhandled Python `ZeroDivisionError`. -/
inductive RunOutcome where
  | configRejected (msg : String)
  | zeroDivisionError
  | completed (results : List RequestResult)
deriving DecidableEq, Repr

/-- `ProductionLoadTester.run_load_test` (lines 185-254), reduced to its
request-issuing behaviour: no validation is performed; the first arithmetic
on the config is `ramp_up_delay = config.ramp_up_seconds /
config.concurrent_users` (line 199), which raises `ZeroDivisionError` when
`concurrent_users == 0` before any worker is submitted; otherwise every
worker runs to completion and the run completes with the collected results.
Printing, result persistence and the trailing analysis call are omitted. -/
def run_load_test (provider : Nat → Nat → ProviderOutcome) (elapsed : Nat → Nat → ℚ)
    (config : LoadTestConfig) : RunOutcome :=
  if config.concurrent_users = 0 then RunOutcome.zeroDivisionError
  else RunOutcome.completed (collectResults provider elapsed config)

/-! ## Metrics aggregation: `analyze_load_test_results` and grading
(lines 256-398) -/

/-- Ascending sort, modelling Python `sorted` / `statistics`-internal sorting. -/
def sortedAsc (l : List ℚ) : List ℚ :=
  l.insertionSort (fun a b => a ≤ b)

/-- Python `statistics.mean`. -/
def pymean (l : List ℚ) : ℚ :=
  l.sum / (l.length : ℚ)

/-- Python `statistics.median`: middle element of the sorted sample for odd
length, average of the two middle elements for even length. -/
def pymedian (l : List ℚ) : ℚ :=
  let s := sortedAsc l
  let n := s.length
  if n % 2 = 1 then s.getD (n / 2) 0
  else (s.getD (n / 2 - 1) 0 + s.getD (n / 2) 0) / 2

/-- Python `min(l)` (left fold of binary `min` over the list). -/
def pymin (l : List ℚ) : ℚ :=
  match l with
  | [] => 0
  | x :: xs => xs.foldl min x

/-- Python `max(l)`. -/
def pymax (l : List ℚ) : ℚ :=
  match l with
  | [] => 0
  | x :: xs => xs.foldl max x

/-- `sorted(l)[int(len(l) * 0.95)] if len(l) > 1 else l[0]` (line 277). -/
def p95val (l : List ℚ) : ℚ :=
  if l.length > 1 then (sortedAsc l).getD (l.length * 95 / 100) 0 else l.getD 0 0

/-- `sorted(l)[int(len(l) * 0.99)] if len(l) > 1 else l[0]` (line 278). -/
def p99val (l : List ℚ) : ℚ :=
  if l.length > 1 then (sortedAsc l).getD (l.length * 99 / 100) 0 else l.getD 0 0

/-- `successful_results` (line 265). -/
def successfulResults (results : List RequestResult) : List RequestResult :=
  results.filter (fun r => r.success)

/-- `failed_results` (line 266). -/
def failedResults (results : List RequestResult) : List RequestResult :=
  results.filter (fun r => !r.success)

/-- `response_times` (line 268): latencies of the successful requests only. -/
def responseTimes (results : List RequestResult) : List ℚ :=
  (successfulResults results).map (fun r => r.response_time)

/-- `ProductionLoadTester.calculate_performance_grade`, success-rate subscore
(lines 361-371). -/
def success_score (success_rate : ℚ) : Nat :=
  if success_rate ≥ 95 / 100 then 50
  else if success_rate ≥ 90 / 100 then 40
  else if success_rate ≥ 80 / 100 then 30
  else if success_rate ≥ 70 / 100 then 20
  else 10

/-- `ProductionLoadTester.calculate_performance_grade`, response-time subscore
(lines 373-383). -/
def response_score (avg_response_time target_response_time : ℚ) : Nat :=
  if avg_response_time ≤ target_response_time * (5 / 10) then 50
  else if avg_response_time ≤ target_response_time * (75 / 100) then 40
  else if avg_response_time ≤ target_response_time then 30
  else if avg_response_time ≤ target_response_time * (15 / 10) then 20
  else 10

/-- `ProductionLoadTester.calculate_performance_grade` (lines 356-398). -/
def calculate_performance_grade (success_rate avg_response_time : ℚ)
    (config : LoadTestConfig) : String :=
  let total_score := success_score success_rate
    + response_score avg_response_time config.target_response_time
  if total_score ≥ 90 then "A+ (Excellent)"
  else if total_score ≥ 80 then "A (Very Good)"
  else if total_score ≥ 70 then "B (Good)"
  else if total_score ≥ 60 then "C (Acceptable)"
  else if total_score ≥ 50 then "D (Poor)"
  else "F (Failing)"

/-- The fields of the analysis dictionary of `analyze_load_test_results` the
claims are about (`performance_summary`, `response_time_metrics`,
`throughput_metrics`, compliance flags and the grade).  The error-type and
model-usage tables and the recommendation list are not modelled; the 2- and
3-decimal display rounding of the source is omitted (module comment). -/
structure AggregateAnalysis where
  total_requests : Nat
  successful_requests : Nat
  failed_requests : Nat
  success_rate : ℚ
  avg_response_time : ℚ
  median_response_time : ℚ
  p95_response_time : ℚ
  p99_response_time : ℚ
  min_response_time : ℚ
  max_response_time : ℚ
  requests_per_second : ℚ
  successful_requests_per_second : ℚ
  response_time_compliance : Bool
  success_rate_compliance : Bool
  overall_compliance : Bool
  performance_grade : String
deriving DecidableEq, Repr, Inhabited

/-- `analyze_load_test_results` either reports, or returns the
`{"error": "No results to analyze"}` dictionary on an empty batch. -/
inductive AnalysisOutcome where
  | noResults
  | report (a : AggregateAnalysis)
deriving DecidableEq, Repr

/-- `ProductionLoadTester.analyze_load_test_results` (lines 256-354). -/
def analyze_load_test_results (results : List RequestResult) (config : LoadTestConfig)
    (total_duration : ℚ) : AnalysisOutcome :=
  if results = [] then AnalysisOutcome.noResults
  else
    let total_requests := results.length
    let success_rate :=
      if total_requests > 0 then
        ((successfulResults results).length : ℚ) / (total_requests : ℚ)
      else 0
    let rts := responseTimes results
    let avg_response_time := if rts = [] then 0 else pymean rts
    let median_response_time := if rts = [] then 0 else pymedian rts
    let p95_response_time := if rts = [] then 0 else p95val rts
    let p99_response_time := if rts = [] then 0 else p99val rts
    let min_response_time := if rts = [] then 0 else pymin rts
    let max_response_time := if rts = [] then 0 else pymax rts
    let requests_per_second :=
      if total_duration > 0 then (total_requests : ℚ) / total_duration else 0
    let successful_requests_per_second :=
      if total_duration > 0 then ((successfulResults results).length : ℚ) / total_duration
      else 0
    let response_time_compliance := decide (avg_response_time ≤ config.target_response_time)
    let success_rate_compliance := decide (success_rate ≥ config.target_success_rate)
    AnalysisOutcome.report
      { total_requests := total_requests
        successful_requests := (successfulResults results).length
        failed_requests := (failedResults results).length
        success_rate := success_rate
        avg_response_time := avg_response_time
        median_response_time := median_response_time
        p95_response_time := p95_response_time
        p99_response_time := p99_response_time
        min_response_time := min_response_time
        max_response_time := max_response_time
        requests_per_second := requests_per_second
        successful_requests_per_second := successful_requests_per_second
        response_time_compliance := response_time_compliance
        success_rate_compliance := success_rate_compliance
        overall_compliance := response_time_compliance && success_rate_compliance
        performance_grade := calculate_performance_grade success_rate avg_response_time config }

/-- Project the report out of an `AnalysisOutcome` (default record for the
`noResults` case). -/
def reportOf (o : AnalysisOutcome) : AggregateAnalysis :=
  match o with
  | AnalysisOutcome.report a => a
  | AnalysisOutcome.noResults => default

/-! ## Scalability analysis: `analyze_scalability` (lines 527-625) -/

/-- One entry of the `load_performance` list (lines 531-540). -/
structure LoadPerf where
  concurrent_users : Nat
  success_rate : ℚ
  avg_response_time : ℚ
  throughput : ℚ
deriving DecidableEq, Repr, Inhabited

/-- The scalability report fields the claims are about (the recommendation
list and the echoed raw data are not modelled). -/
structure ScalabilityReport where
  response_time_increase_factor : ℚ
  success_rate_decrease : ℚ
  throughput_scaling_factor : ℚ
  scalability_grade : String
deriving DecidableEq, Repr

/-- `ProductionLoadTester.calculate_scalability_grade` (lines 579-625). -/
def calculate_scalability_grade (response_time_increase success_rate_decrease
    throughput_scaling : ℚ) : String :=
  let s1 : Nat :=
    if response_time_increase ≤ 15 / 10 then 40
    else if response_time_increase ≤ 2 then 30
    else if response_time_increase ≤ 3 then 20
    else 10
  let s2 : Nat :=
    if success_rate_decrease ≤ 5 / 100 then 30
    else if success_rate_decrease ≤ 10 / 100 then 20
    else if success_rate_decrease ≤ 20 / 100 then 10
    else 0
  let s3 : Nat :=
    if throughput_scaling ≥ 8 / 10 then 30
    else if throughput_scaling ≥ 6 / 10 then 20
    else if throughput_scaling ≥ 4 / 10 then 10
    else 0
  let score := s1 + s2 + s3
  if score ≥ 90 then "Excellent Scalability"
  else if score ≥ 75 then "Good Scalability"
  else if score ≥ 60 then "Acceptable Scalability"
  else if score ≥ 45 then "Poor Scalability"
  else "Critical Scalability Issues"

/-- `load_performance.sort(key=lambda x: x["concurrent_users"])` (line 543). -/
def sortLoadPerf (lps : List LoadPerf) : List LoadPerf :=
  lps.insertionSort (fun a b => a.concurrent_users ≤ b.concurrent_users)

/-- `ProductionLoadTester.analyze_scalability` (lines 527-577), on the
already-extracted per-level performance entries.  The source rounds the three
factors to 2/3 decimals for display; the computed values are kept exact
(module comment). -/
def analyze_scalability (lps : List LoadPerf) : ScalabilityReport :=
  let load_performance := sortLoadPerf lps
  if load_performance.length > 1 then
    let response_times := load_performance.map (fun lp => lp.avg_response_time)
    let response_time_increase :=
      if response_times.headD 0 > 0 then response_times.getLastD 0 / response_times.headD 0
      else 1
    let success_rates := load_performance.map (fun lp => lp.success_rate)
    let success_rate_decrease := success_rates.headD 0 - success_rates.getLastD 0
    let throughputs := load_performance.map (fun lp => lp.throughput)
    let throughput_scaling :=
      if throughputs.headD 0 > 0 then throughputs.getLastD 0 / throughputs.headD 0
      else 1
    { response_time_increase_factor := response_time_increase
      success_rate_decrease := success_rate_decrease
      throughput_scaling_factor := throughput_scaling
      scalability_grade := calculate_scalability_grade response_time_increase
        success_rate_decrease throughput_scaling }
  else
    { response_time_increase_factor := 1
      success_rate_decrease := 0
      throughput_scaling_factor := 1
      scalability_grade := "Insufficient data" }

/-! ## Specification-side grading tables

These definitions transcribe the tier tables exactly as the specification
states them (success-rate tiers, response-time-ratio tiers, letter bands);
they are compared with the source-derived definitions above. -/

/-- The specification's success-rate tier table
`{≥0.95:50, ≥0.90:40, ≥0.80:30, ≥0.70:20, else:10}`. -/
def success_tier_table (success_rate : ℚ) : Nat :=
  if success_rate ≥ 95 / 100 then 50
  else if success_rate ≥ 90 / 100 then 40
  else if success_rate ≥ 80 / 100 then 30
  else if success_rate ≥ 70 / 100 then 20
  else 10

/-- The specification's response-time-ratio-to-target tier table
`{≤0.5×target:50, ≤0.75×target:40, ≤1.0×target:30, ≤1.5×target:20, else:10}`. -/
def response_tier_table (avg_response_time target_response_time : ℚ) : Nat :=
  if avg_response_time ≤ target_response_time * (5 / 10) then 50
  else if avg_response_time ≤ target_response_time * (75 / 100) then 40
  else if avg_response_time ≤ target_response_time then 30
  else if avg_response_time ≤ target_response_time * (15 / 10) then 20
  else 10

/-- The specification's letter bands
`{≥90:"A+", ≥80:"A", ≥70:"B", ≥60:"C", ≥50:"D", else:"F"}`. -/
def letter_band (total_score : Nat) : String :=
  if total_score ≥ 90 then "A+"
  else if total_score ≥ 80 then "A"
  else if total_score ≥ 70 then "B"
  else if total_score ≥ 60 then "C"
  else if total_score ≥ 50 then "D"
  else "F"

/-- The descriptive suffix the source appends to each letter band. -/
def band_descriptor (band : String) : String :=
  if band = "A+" then " (Excellent)"
  else if band = "A" then " (Very Good)"
  else if band = "B" then " (Good)"
  else if band = "C" then " (Acceptable)"
  else if band = "D" then " (Poor)"
  else " (Failing)"

/-! ## Concrete example inputs (used by witnesses and counterexamples) -/

/-- A provider oracle that always fails. -/
def providerDown : Nat → Nat → ProviderOutcome :=
  fun _ _ => ProviderOutcome.error "AI service unavailable"

/-- A constant elapsed-time oracle. -/
def elapsedOne : Nat → Nat → ℚ :=
  fun _ _ => 1

/-- The `light_load` configuration of the source (lines 53-60). -/
def cfgLight : LoadTestConfig :=
  { concurrent_users := 5, requests_per_user := 10, test_duration_seconds := 60,
    ramp_up_seconds := 10, target_response_time := 5, target_success_rate := 95 / 100 }

/-- A configuration with zero concurrent users. -/
def cfgZeroUsers : LoadTestConfig :=
  { concurrent_users := 0, requests_per_user := 10, test_duration_seconds := 60,
    ramp_up_seconds := 10, target_response_time := 5, target_success_rate := 95 / 100 }

/-- A configuration with one user and zero requests per user. -/
def cfgVacuous : LoadTestConfig :=
  { concurrent_users := 1, requests_per_user := 0, test_duration_seconds := 60,
    ramp_up_seconds := 10, target_response_time := 5, target_success_rate := 95 / 100 }

/-- Expected themes of the "Young Professional Male" scenario (lines 72-79 of
`dataset_builder.py`). -/
def themesEx : List String :=
  ["career", "ambition", "lifestyle"]

/-- A context whose `user_gender` is neither "male" nor "female". -/
def nbCtx : AnalysisContext :=
  { user_gender := "nonbinary", target_gender := "female", age_range := "25-30",
    app_type := "Tinder" }

/-- A male Tinder context. -/
def maleCtx : AnalysisContext :=
  { user_gender := "male", target_gender := "female", age_range := "25-30",
    app_type := "Tinder" }

/-- A successful request record. -/
def rOkEx : RequestResult :=
  { request_id := "user_0_req_0", response_time := 2, success := true, error := none,
    suggestions_count := 3, models_used := ["gpt-4o"], user_id := some 0 }

/-- A failed request record. -/
def rErrEx : RequestResult :=
  { request_id := "user_0_req_1", response_time := 5, success := false,
    error := some "timeout", suggestions_count := 0, models_used := [], user_id := some 0 }

/-- A light-load performance entry. -/
def lpLight : LoadPerf :=
  { concurrent_users := 5, success_rate := 96 / 100, avg_response_time := 2,
    throughput := 10 }

/-- A moderate-load performance entry. -/
def lpModerate : LoadPerf :=
  { concurrent_users := 20, success_rate := 90 / 100, avg_response_time := 4,
    throughput := 15 }

/-! ## Helper lemmas -/

lemma pyRound3_close (x : ℚ) : |pyRound x 3 - x| ≤ 1 / 2000 := by
  have h := abs_sub_round (x * (10 : ℚ) ^ 3)
  have hkey : pyRound x 3 - x = (((round (x * (10 : ℚ) ^ 3) : ℤ) : ℚ) - x * (10 : ℚ) ^ 3) / (10 : ℚ) ^ 3 := by
    unfold pyRound
    ring
  rw [hkey, abs_div]
  rw [abs_sub_comm] at h
  have hp : |(10 : ℚ) ^ 3| = 1000 := by norm_num
  rw [hp]
  norm_num at h ⊢
  linarith

lemma length_filter_not_add {α : Type} (p : α → Bool) (l : List α) :
    (l.filter p).length + (l.filter (fun a => !p a)).length = l.length := by
  induction l with
  | nil => rfl
  | cons x xs ih =>
      cases h : p x <;> simp [List.filter_cons, h] <;> omega

lemma pyIn_into_empty (t : String) (h : t ≠ "") : pyIn t "" = false := by
  rcases t with ⟨d⟩
  cases d with
  | nil => exact absurd rfl h
  | cons c cs => simp [pyIn, List.infix_nil]

lemma pyLower_ne_empty (s : String) (h : s ≠ "") : pyLower s ≠ "" := by
  rcases s with ⟨d⟩
  cases d with
  | nil => exact absurd rfl h
  | cons c cs =>
      intro hc
      have hd := congrArg String.data hc
      simp [pyLower] at hd

lemma single_request_test_request_id (rid : String) (o : ProviderOutcome) (el : ℚ) :
    (single_request_test rid o el).request_id = rid := by
  cases o <;> rfl

/-! ## Claim theorems -/

/-- C6: `single_request_test` is a total function of the provider outcome: a
provider failure becomes a returned record with `success = false`, the error
message captured, and `response_time` equal to the elapsed time up to the
failure; a non-failing call yields `success = true` iff the provider returned
at least 1 suggestion. -/
theorem single_request_test_total :
    ∀ (request_id : String) (elapsed : ℚ) (msg : String) (result : AnalysisResult),
      (single_request_test request_id (ProviderOutcome.error msg) elapsed).success = false ∧
      (single_request_test request_id (ProviderOutcome.error msg) elapsed).error = some msg ∧
      (single_request_test request_id (ProviderOutcome.error msg) elapsed).response_time
        = elapsed ∧
      (single_request_test request_id (ProviderOutcome.ok result) elapsed).response_time
        = elapsed ∧
      ((single_request_test request_id (ProviderOutcome.ok result) elapsed).success = true ↔
        1 ≤ (result.final_suggestions.getD []).length) := by
  intro request_id elapsed msg result
  refine ⟨rfl, rfl, rfl, rfl, ?_⟩
  cases h : result.final_suggestions with
  | none => simp [single_request_test, h]
  | some l =>
      simp only [single_request_test, h, Option.isSome_some, Option.getD_some, Bool.true_and,
        decide_eq_true_eq]
      omega

/-- C7: in the enhanced mode the per-suggestion overall score is exactly the
dot product of the criterion scores with the declared weights, which sum to
1; in the basic mode the stored overall score differs from the dot product
only by the source's 3-decimal rounding (at most 1/2000), and the basic
weights also sum to 1. -/
theorem overall_score_weighted_sum :
    ∀ (cs : CombinedScores) (bs : BasicScores),
      suggestion_weighted_score cs =
        cs.relevance * (25 / 100) + cs.creativity * (15 / 100)
          + cs.appropriateness * (20 / 100) + cs.engagement * (15 / 100)
          + cs.specificity * (10 / 100) + cs.gender_appropriateness * (10 / 100)
          + cs.context_awareness * (5 / 100) ∧
      (enhanced_weights.map Prod.snd).sum = 1 ∧
      |calculate_overall_score bs
          - (bs.relevance * (30 / 100) + bs.creativity * (20 / 100)
            + bs.appropriateness * (25 / 100) + bs.engagement * (15 / 100)
            + bs.specificity * (10 / 100))| ≤ 1 / 2000 ∧
      (basic_weights.map Prod.snd).sum = 1 := by
  intro cs bs
  have hdot : (basic_weights.map (fun mw => basicScoreOf bs mw.1 * mw.2)).sum
      = bs.relevance * (30 / 100) + bs.creativity * (20 / 100)
        + bs.appropriateness * (25 / 100) + bs.engagement * (15 / 100)
        + bs.specificity * (10 / 100) := by
    simp [basic_weights, basicScoreOf]
    ring
  refine ⟨?_, by norm_num [enhanced_weights], ?_, by norm_num [basic_weights]⟩
  · simp [suggestion_weighted_score, enhanced_weights, combinedScoreOf]
    ring
  · rw [calculate_overall_score, hdot]
    exact pyRound3_close _

/-- C10: for every `user_gender` other than exactly "male" the gender score
is computed from the female indicator lists (there is no third branch), and
the returned score always lies in [0, 1]. -/
theorem gender_scoring_defaults_female :
    ∀ (text : String) (ctx : AnalysisContext), ctx.user_gender ≠ "male" →
      score_gender_appropriateness text ctx
        = max 0 (min 1 (min ((countHits female_positive_indicators text : ℚ) * (3 / 10)) 1
            - (countHits female_negative_indicators text : ℚ) * (2 / 10))) ∧
      0 ≤ score_gender_appropriateness text ctx ∧
      score_gender_appropriateness text ctx ≤ 1 := by
  intro text ctx h
  refine ⟨by simp [score_gender_appropriateness, h], le_max_left _ _, ?_⟩
  unfold score_gender_appropriateness
  exact max_le (by norm_num) (min_le_left _ _)

/-- Witness for C10 at `text = "hello"` and a nonbinary context. -/
theorem gender_scoring_defaults_female_witness :
    score_gender_appropriateness "hello" nbCtx
      = max 0 (min 1 (min ((countHits female_positive_indicators "hello" : ℚ) * (3 / 10)) 1
          - (countHits female_negative_indicators "hello" : ℚ) * (2 / 10))) ∧
    0 ≤ score_gender_appropriateness "hello" nbCtx ∧
    score_gender_appropriateness "hello" nbCtx ≤ 1 :=
  gender_scoring_defaults_female "hello" nbCtx (by decide)

lemma letter_band_with_descriptor (t : Nat) :
    letter_band t ++ band_descriptor (letter_band t)
      = if t ≥ 90 then "A+ (Excellent)" else if t ≥ 80 then "A (Very Good)"
        else if t ≥ 70 then "B (Good)" else if t ≥ 60 then "C (Acceptable)"
        else if t ≥ 50 then "D (Poor)" else "F (Failing)" := by
  unfold letter_band
  split_ifs <;> rfl

/-- C4: the performance grade is the sum of the two 0-50 tier subscores (the
source's subscores coincide with the specification's tier tables, so every
tier boundary is inclusive on its lower edge — in particular a success rate
of exactly 0.95 earns the 50-point tier), mapped to the letter band of the
total with the source's descriptive suffix appended. -/
theorem performance_grade_tier_tables :
    ∀ (success_rate avg_response_time : ℚ) (config : LoadTestConfig),
      success_score success_rate = success_tier_table success_rate ∧
      response_score avg_response_time config.target_response_time
        = response_tier_table avg_response_time config.target_response_time ∧
      calculate_performance_grade success_rate avg_response_time config
        = letter_band (success_tier_table success_rate
            + response_tier_table avg_response_time config.target_response_time)
          ++ band_descriptor (letter_band (success_tier_table success_rate
            + response_tier_table avg_response_time config.target_response_time)) ∧
      success_score (95 / 100) = 50 := by
  intro success_rate avg_response_time config
  refine ⟨rfl, rfl, ?_, by norm_num [success_score]⟩
  rw [letter_band_with_descriptor]
  rfl

/-- C8: on every non-empty batch the aggregate report satisfies
`successful + failed = total` and `0 ≤ success_rate ≤ 1`. -/
theorem aggregate_counts_consistent :
    ∀ (results : List RequestResult) (config : LoadTestConfig) (dur : ℚ),
      results ≠ [] →
      (reportOf (analyze_load_test_results results config dur)).successful_requests
          + (reportOf (analyze_load_test_results results config dur)).failed_requests
        = (reportOf (analyze_load_test_results results config dur)).total_requests ∧
      0 ≤ (reportOf (analyze_load_test_results results config dur)).success_rate ∧
      (reportOf (analyze_load_test_results results config dur)).success_rate ≤ 1 := by
  intro results config dur h
  have hpos : 0 < results.length := List.length_pos.mpr h
  simp only [analyze_load_test_results, if_neg h, reportOf]
  refine ⟨?_, ?_, ?_⟩
  · simpa [successfulResults, failedResults] using
      length_filter_not_add (fun r => r.success) results
  · rw [if_pos hpos]
    exact div_nonneg (Nat.cast_nonneg _) (Nat.cast_nonneg _)
  · rw [if_pos hpos]
    rw [div_le_one (by exact_mod_cast hpos)]
    exact_mod_cast List.length_filter_le _ _

/-- Witness for C8 on a concrete two-request batch. -/
theorem aggregate_counts_consistent_witness :
    (reportOf (analyze_load_test_results [rOkEx, rErrEx] cfgLight 10)).successful_requests
        + (reportOf (analyze_load_test_results [rOkEx, rErrEx] cfgLight 10)).failed_requests
      = (reportOf (analyze_load_test_results [rOkEx, rErrEx] cfgLight 10)).total_requests ∧
    0 ≤ (reportOf (analyze_load_test_results [rOkEx, rErrEx] cfgLight 10)).success_rate ∧
    (reportOf (analyze_load_test_results [rOkEx, rErrEx] cfgLight 10)).success_rate ≤ 1 :=
  aggregate_counts_consistent [rOkEx, rErrEx] cfgLight 10 (by decide)

lemma user_simulation_length (p : Nat → Nat → ProviderOutcome) (e : Nat → Nat → ℚ)
    (uid : Nat) (config : LoadTestConfig) :
    (user_simulation p e uid config).length = config.requests_per_user := by
  simp [user_simulation]

lemma collectResults_length (p : Nat → Nat → ProviderOutcome) (e : Nat → Nat → ℚ)
    (config : LoadTestConfig) :
    (collectResults p e config).length
      = config.concurrent_users * config.requests_per_user := by
  simp [collectResults, List.length_flatten, List.map_map, Function.comp_def,
    user_simulation_length, List.map_const', List.sum_replicate, smul_eq_mul,
    List.length_range]

/-- C1 counterexample: with `concurrent_users = 0` the run hits the unhandled
division by zero while computing the ramp-up delay (it is not rejected with a
descriptive configuration error), and with `requests_per_user = 0` the run
silently completes vacuously with zero results instead of being rejected. -/
theorem run_load_test_zero_config_counterexample :
    run_load_test providerDown elapsedOne cfgZeroUsers = RunOutcome.zeroDivisionError ∧
    run_load_test providerDown elapsedOne cfgVacuous = RunOutcome.completed [] := by
  exact ⟨rfl, rfl⟩

/-- C1 amended: `run_load_test` performs no configuration validation.  With
`concurrent_users = 0` it crashes with the unhandled `ZeroDivisionError` of
the ramp-up-delay computation before any worker starts; with
`concurrent_users ≥ 1` it always completes — for `requests_per_user = 0`
this is a vacuous run of `concurrent_users × 0 = 0` results, whose analysis
is the `"No results to analyze"` error record rather than a rejection. -/
theorem run_load_test_no_validation :
    ∀ (provider : Nat → Nat → ProviderOutcome) (elapsed : Nat → Nat → ℚ)
      (config : LoadTestConfig) (dur : ℚ),
      (config.concurrent_users = 0 →
        run_load_test provider elapsed config = RunOutcome.zeroDivisionError) ∧
      (config.concurrent_users ≠ 0 →
        run_load_test provider elapsed config
          = RunOutcome.completed (collectResults provider elapsed config) ∧
        (collectResults provider elapsed config).length
          = config.concurrent_users * config.requests_per_user) ∧
      analyze_load_test_results [] config dur = AnalysisOutcome.noResults := by
  intro provider elapsed config dur
  refine ⟨fun h0 => by simp [run_load_test, h0],
    fun hne => ⟨by simp [run_load_test, hne], collectResults_length provider elapsed config⟩,
    rfl⟩

/-- Witness for C1 (amended) at the zero-user and zero-request configurations. -/
theorem run_load_test_no_validation_witness :
    run_load_test providerDown elapsedOne cfgZeroUsers = RunOutcome.zeroDivisionError ∧
    (run_load_test providerDown elapsedOne cfgVacuous
        = RunOutcome.completed (collectResults providerDown elapsedOne cfgVacuous) ∧
      (collectResults providerDown elapsedOne cfgVacuous).length
        = cfgVacuous.concurrent_users * cfgVacuous.requests_per_user) ∧
    analyze_load_test_results [] cfgLight 60 = AnalysisOutcome.noResults :=
  ⟨(run_load_test_no_validation providerDown elapsedOne cfgZeroUsers 60).1 rfl,
    (run_load_test_no_validation providerDown elapsedOne cfgVacuous 60).2.1 (by decide),
    (run_load_test_no_validation providerDown elapsedOne cfgLight 60).2.2⟩

/-- C9: with `concurrent_users ≥ 1` (workers cannot fail in this model, which
matches the claim's "no worker fails entirely" premise) the run completes
with exactly `concurrent_users × requests_per_user` results; each worker's
request ids embed the sequence numbers `0, 1, ...` in issuance order, and
that sequence is strictly increasing. -/
theorem load_simulator_request_counts :
    ∀ (provider : Nat → Nat → ProviderOutcome) (elapsed : Nat → Nat → ℚ)
      (config : LoadTestConfig) (user_id : Nat), 0 < config.concurrent_users →
      run_load_test provider elapsed config
        = RunOutcome.completed (collectResults provider elapsed config) ∧
      (collectResults provider elapsed config).length
        = config.concurrent_users * config.requests_per_user ∧
      (user_simulation provider elapsed user_id config).map (fun r => r.request_id)
        = (List.range config.requests_per_user).map (fun k => requestIdFor user_id k) ∧
      List.Chain' (fun a b => a < b) (List.range config.requests_per_user) := by
  intro p e config uid h
  refine ⟨by simp [run_load_test, Nat.pos_iff_ne_zero.mp h],
    collectResults_length p e config, ?_, (List.pairwise_lt_range _).chain'⟩
  simp [user_simulation, List.map_map, Function.comp_def, single_request_test_request_id]

/-- Witness for C9 at the light-load configuration (5 users × 10 requests,
hence exactly 50 records). -/
theorem load_simulator_request_counts_witness :
    run_load_test providerDown elapsedOne cfgLight
      = RunOutcome.completed (collectResults providerDown elapsedOne cfgLight) ∧
    (collectResults providerDown elapsedOne cfgLight).length
      = cfgLight.concurrent_users * cfgLight.requests_per_user ∧
    (user_simulation providerDown elapsedOne 0 cfgLight).map (fun r => r.request_id)
      = (List.range cfgLight.requests_per_user).map (fun k => requestIdFor 0 k) ∧
    List.Chain' (fun a b => a < b) (List.range cfgLight.requests_per_user) :=
  load_simulator_request_counts providerDown elapsedOne cfgLight 0 (by decide)

/-- C2 counterexample: scoring the empty string leaves creativity and
appropriateness at their ceiling 1.0 — the maximum of their range, not "at
or near the floor of 0" — because both criteria only subtract penalties. -/
theorem empty_string_ceiling_counterexample :
    (quality_score_suggestion "" themesEx).creativity = 1 ∧
    (quality_score_suggestion "" themesEx).appropriateness = 1 ∧
    ¬((quality_score_suggestion "" themesEx).creativity ≤ 1 / 2) := by
  have hgen : countHits generic_phrases (pyLower "") = 0 := by decide
  have hinap : countHits inappropriate_words (pyLower "") = 0 := by decide
  refine ⟨?_, ?_, ?_⟩ <;> simp [quality_score_suggestion, hgen, hinap] <;> norm_num

/-- C2 amended: scoring `""` (against any rubric whose themes and app type
are non-empty strings) yields relevance, engagement and
gender-appropriateness at their floor 0, specificity at its lowest tier 0.2
and context-awareness at its base 0.5, but creativity and appropriateness at
their ceiling 1.0, since those two criteria are penalty-based. -/
theorem empty_string_score_profile :
    ∀ (themes : List String) (ctx : AnalysisContext) (scenAge : Option String),
      (∀ t ∈ themes, t ≠ "") → ctx.app_type ≠ "" →
      (quality_score_suggestion "" themes).relevance = 0 ∧
      (quality_score_suggestion "" themes).creativity = 1 ∧
      (quality_score_suggestion "" themes).appropriateness = 1 ∧
      (quality_score_suggestion "" themes).engagement = 0 ∧
      (quality_score_suggestion "" themes).specificity = 2 / 10 ∧
      score_gender_appropriateness "" ctx = 0 ∧
      score_context_awareness "" ctx scenAge = 1 / 2 := by
  intro themes ctx scenAge hthemes happ
  have hpl : pyLower "" = "" := rfl
  have hcount : themes.countP (fun theme => pyIn theme (pyLower "")) = 0 := by
    rw [List.countP_eq_zero]
    intro t ht
    rw [hpl]
    simp [pyIn_into_empty t (hthemes t ht)]
  refine ⟨?_, ?_, ?_, ?_, ?_, ?_, ?_⟩
  · simp [quality_score_suggestion, hcount]
  · have hgen : countHits generic_phrases (pyLower "") = 0 := by decide
    simp [quality_score_suggestion, hgen]
  · have hinap : countHits inappropriate_words (pyLower "") = 0 := by decide
    simp [quality_score_suggestion, hinap]
  · have heng : countHits engagement_indicators (pyLower "") = 0 := by decide
    simp [quality_score_suggestion, heng]
  · have hsplit : (pySplitWs "").length = 0 := by decide
    simp [quality_score_suggestion, hsplit]
  · by_cases hg : ctx.user_gender = "male"
    · have hp : countHits male_positive_indicators "" = 0 := by decide
      have hn : countHits male_negative_indicators "" = 0 := by decide
      simp [score_gender_appropriateness, hg, hp, hn]
    · have hp : countHits female_positive_indicators "" = 0 := by decide
      have hn : countHits female_negative_indicators "" = 0 := by decide
      simp [score_gender_appropriateness, hg, hp, hn]
  · unfold score_context_awareness
    have h1 : pyIn (pyLower ctx.app_type) "" = false :=
      pyIn_into_empty _ (pyLower_ne_empty _ happ)
    have h2 : (["cool", "awesome", "vibe"].any (fun word => pyIn word "")) = false := by
      decide
    have h3 : (["interesting", "fascinating", "appreciate"].any
        (fun word => pyIn word "")) = false := by
      decide
    simp [h1, h2, h3]
    norm_num

/-- Witness for C2 (amended) at the "Young Professional Male" rubric. -/
theorem empty_string_score_profile_witness :
    (quality_score_suggestion "" themesEx).relevance = 0 ∧
    (quality_score_suggestion "" themesEx).creativity = 1 ∧
    (quality_score_suggestion "" themesEx).appropriateness = 1 ∧
    (quality_score_suggestion "" themesEx).engagement = 0 ∧
    (quality_score_suggestion "" themesEx).specificity = 2 / 10 ∧
    score_gender_appropriateness "" maleCtx = 0 ∧
    score_context_awareness "" maleCtx (some "25-30") = 1 / 2 :=
  empty_string_score_profile themesEx maleCtx (some "25-30") (by decide) (by decide)

lemma headD_map {α β : Type} (f : α → β) (l : List α) (d : α) (hl : l ≠ []) :
    (l.map f).headD (f d) = f (l.headD d) := by
  cases l with
  | nil => exact absurd rfl hl
  | cons x xs => rfl

lemma getLastD_map {α β : Type} (f : α → β) (l : List α) (d : α) (hl : l ≠ []) :
    (l.map f).getLastD (f d) = f (l.getLastD d) := by
  rw [List.getLastD_eq_getLast?, List.getLastD_eq_getLast?, List.getLast?_map]
  cases h : l.getLast? with
  | none => rw [List.getLast?_eq_none_iff] at h; exact absurd h hl
  | some x => rfl

/-- C5 counterexample: with a single load level the source returns the
neutral ratios, but its grade string is `"Insufficient data"` (capital I),
not the claimed `"insufficient data"`. -/
theorem scalability_insufficient_data_capitalization :
    (analyze_scalability [lpLight]).response_time_increase_factor = 1 ∧
    (analyze_scalability [lpLight]).success_rate_decrease = 0 ∧
    (analyze_scalability [lpLight]).throughput_scaling_factor = 1 ∧
    (analyze_scalability [lpLight]).scalability_grade = "Insufficient data" ∧
    (analyze_scalability [lpLight]).scalability_grade ≠ "insufficient data" := by
  refine ⟨rfl, rfl, rfl, rfl, by decide⟩

/-- C5 amended: with fewer than 2 data points the analyzer returns the
neutral ratios (1.0, 0.0, 1.0) and the grade `"Insufficient data"` (the
source capitalizes the first letter); with 2 or more points, ordered by
ascending `concurrent_users`, it returns `success_rate_decrease =
earliest_rate − latest_rate`, `response_time_increase_factor = latest_mean /
earliest_mean` (1.0 when the earliest mean is 0) and
`throughput_scaling_factor = latest_throughput / earliest_throughput` (1.0
when the earliest throughput is 0). -/
theorem scalability_factors :
    ∀ (lps : List LoadPerf),
      (lps.length < 2 →
        analyze_scalability lps =
          { response_time_increase_factor := 1, success_rate_decrease := 0,
            throughput_scaling_factor := 1, scalability_grade := "Insufficient data" }) ∧
      (List.Sorted (fun a b => a.concurrent_users ≤ b.concurrent_users) lps →
        2 ≤ lps.length →
        ((analyze_scalability lps).success_rate_decrease
          = (lps.headD default).success_rate - (lps.getLastD default).success_rate ∧
        (0 < (lps.headD default).avg_response_time →
          (analyze_scalability lps).response_time_increase_factor
            = (lps.getLastD default).avg_response_time
              / (lps.headD default).avg_response_time) ∧
        ((lps.headD default).avg_response_time = 0 →
          (analyze_scalability lps).response_time_increase_factor = 1) ∧
        (0 < (lps.headD default).throughput →
          (analyze_scalability lps).throughput_scaling_factor
            = (lps.getLastD default).throughput / (lps.headD default).throughput) ∧
        ((lps.headD default).throughput = 0 →
          (analyze_scalability lps).throughput_scaling_factor = 1))) := by
  intro lps
  have hlen : (sortLoadPerf lps).length = lps.length :=
    (List.perm_insertionSort _ lps).length_eq
  constructor
  · intro hlt
    unfold analyze_scalability
    rw [if_neg (by omega)]
  · intro hsort hge
    have hne : lps ≠ [] := by
      intro h
      rw [h] at hge
      simp at hge
    have heq : sortLoadPerf lps = lps := List.Sorted.insertionSort_eq hsort
    unfold analyze_scalability
    rw [heq, if_pos (by omega)]
    have hhd : ∀ f : LoadPerf → ℚ, (lps.map f).headD 0 = f (lps.headD default) := by
      intro f
      have := headD_map f lps default hne
      cases lps with
      | nil => exact absurd rfl hne
      | cons x xs => exact this
    have hlast : ∀ f : LoadPerf → ℚ, (lps.map f).getLastD 0 = f (lps.getLastD default) := by
      intro f
      cases lps with
      | nil => exact absurd rfl hne
      | cons x xs =>
          have h0 : ((x :: xs).map f).getLastD 0 = ((x :: xs).map f).getLastD (f default) := by
            rw [List.getLastD_eq_getLast?, List.getLastD_eq_getLast?]
            cases hlast? : ((x :: xs).map f).getLast? with
            | none => simp at hlast?
            | some y => rfl
          rw [h0]
          exact getLastD_map f (x :: xs) default hne
    simp only [hhd, hlast]
    refine ⟨by trivial, ?_, ?_, ?_, ?_⟩
    · intro hpos
      rw [if_pos hpos]
    · intro hzero
      rw [hzero, if_neg (by norm_num)]
    · intro hpos
      rw [if_pos hpos]
    · intro hzero
      rw [hzero, if_neg (by norm_num)]

/-- Witness for C5 at a concrete two-level (5 then 20 users) report list. -/
theorem scalability_factors_witness :
    ((analyze_scalability [lpLight, lpModerate]).success_rate_decrease
      = ([lpLight, lpModerate].headD default).success_rate
        - ([lpLight, lpModerate].getLastD default).success_rate ∧
    (0 < ([lpLight, lpModerate].headD default).avg_response_time →
      (analyze_scalability [lpLight, lpModerate]).response_time_increase_factor
        = ([lpLight, lpModerate].getLastD default).avg_response_time
          / ([lpLight, lpModerate].headD default).avg_response_time) ∧
    (([lpLight, lpModerate].headD default).avg_response_time = 0 →
      (analyze_scalability [lpLight, lpModerate]).response_time_increase_factor = 1) ∧
    (0 < ([lpLight, lpModerate].headD default).throughput →
      (analyze_scalability [lpLight, lpModerate]).throughput_scaling_factor
        = ([lpLight, lpModerate].getLastD default).throughput
          / ([lpLight, lpModerate].headD default).throughput) ∧
    (([lpLight, lpModerate].headD default).throughput = 0 →
      (analyze_scalability [lpLight, lpModerate]).throughput_scaling_factor = 1)) :=
  (scalability_factors [lpLight, lpModerate]).2 (by decide) (by decide)

lemma foldl_min_le_init (xs : List ℚ) (a : ℚ) : xs.foldl min a ≤ a := by
  induction xs generalizing a with
  | nil => simp
  | cons y ys ih => exact le_trans (ih (min a y)) (min_le_left a y)

lemma foldl_min_le_mem {x : ℚ} {xs : List ℚ} (hx : x ∈ xs) (a : ℚ) :
    xs.foldl min a ≤ x := by
  induction xs generalizing a with
  | nil => cases hx
  | cons y ys ih =>
      rcases List.mem_cons.mp hx with h | h
      · subst h
        exact le_trans (foldl_min_le_init ys _) (min_le_right a x)
      · exact ih h _

lemma pymin_le_of_mem {x : ℚ} {l : List ℚ} (hx : x ∈ l) : pymin l ≤ x := by
  cases l with
  | nil => cases hx
  | cons y ys =>
      rcases List.mem_cons.mp hx with h | h
      · subst h
        exact foldl_min_le_init ys x
      · exact foldl_min_le_mem h y

lemma init_le_foldl_max (xs : List ℚ) (a : ℚ) : a ≤ xs.foldl max a := by
  induction xs generalizing a with
  | nil => simp
  | cons y ys ih => exact le_trans (le_max_left a y) (ih (max a y))

lemma mem_le_foldl_max {x : ℚ} {xs : List ℚ} (hx : x ∈ xs) (a : ℚ) :
    x ≤ xs.foldl max a := by
  induction xs generalizing a with
  | nil => cases hx
  | cons y ys ih =>
      rcases List.mem_cons.mp hx with h | h
      · subst h
        exact le_trans (le_max_right a x) (init_le_foldl_max ys _)
      · exact ih h _

lemma le_pymax_of_mem {x : ℚ} {l : List ℚ} (hx : x ∈ l) : x ≤ pymax l := by
  cases l with
  | nil => cases hx
  | cons y ys =>
      rcases List.mem_cons.mp hx with h | h
      · subst h
        exact init_le_foldl_max ys x
      · exact mem_le_foldl_max h y

lemma sortedAsc_sorted (l : List ℚ) : List.Sorted (fun a b => a ≤ b) (sortedAsc l) :=
  List.sorted_insertionSort _ l

lemma sortedAsc_perm (l : List ℚ) : (sortedAsc l).Perm l :=
  List.perm_insertionSort _ l

lemma sortedAsc_length (l : List ℚ) : (sortedAsc l).length = l.length :=
  (sortedAsc_perm l).length_eq

lemma sortedAsc_getD_mono {l : List ℚ} {i j : Nat} (hij : i ≤ j)
    (hj : j < (sortedAsc l).length) :
    (sortedAsc l).getD i 0 ≤ (sortedAsc l).getD j 0 := by
  have hi : i < (sortedAsc l).length := lt_of_le_of_lt hij hj
  rw [List.getD_eq_getElem _ _ hi, List.getD_eq_getElem _ _ hj]
  have h := (sortedAsc_sorted l).rel_get_of_le
    (a := ⟨i, hi⟩) (b := ⟨j, hj⟩) (by exact hij)
  simpa using h

lemma sortedAsc_getD_mem {l : List ℚ} {i : Nat} (hi : i < (sortedAsc l).length) :
    (sortedAsc l).getD i 0 ∈ l := by
  rw [List.getD_eq_getElem _ _ hi]
  exact (sortedAsc_perm l).mem_iff.mp (List.getElem_mem hi)

lemma stat_single (x : ℚ) :
    pymedian [x] = x ∧ p95val [x] = x ∧ p99val [x] = x ∧ pymin [x] = x ∧ pymax [x] = x := by
  refine ⟨?_, ?_, ?_, ?_, ?_⟩ <;>
    simp [pymedian, p95val, p99val, pymin, pymax, sortedAsc, List.insertionSort,
      List.orderedInsert]

lemma stat_chain {l : List ℚ} (hl : l ≠ []) :
    pymin l ≤ pymedian l ∧ pymedian l ≤ p95val l ∧ p95val l ≤ p99val l ∧
      p99val l ≤ pymax l := by
  have hpos : 0 < l.length := List.length_pos.mpr hl
  by_cases h1 : l.length = 1
  · obtain ⟨x, rfl⟩ := List.length_eq_one.mp h1
    obtain ⟨e1, e2, e3, e4, e5⟩ := stat_single x
    rw [e1, e2, e3, e4, e5]
    exact ⟨le_refl x, le_refl x, le_refl x, le_refl x⟩
  · have h2 : 2 ≤ l.length := by omega
    set s := sortedAsc l with hs
    have hslen : s.length = l.length := sortedAsc_length l
    set n := l.length with hn
    have i95lt : n * 95 / 100 < n := by omega
    have i99lt : n * 99 / 100 < n := by omega
    have i9599 : n * 95 / 100 ≤ n * 99 / 100 := by omega
    have imed95 : n / 2 ≤ n * 95 / 100 := by omega
    have hm2 : n / 2 < n := by omega
    have hmono : ∀ i j, i ≤ j → j < n → s.getD i 0 ≤ s.getD j 0 := by
      intro i j hij hj
      exact sortedAsc_getD_mono hij (by rw [hslen]; exact hj)
    have hmem : ∀ i, i < n → s.getD i 0 ∈ l := by
      intro i hi
      exact sortedAsc_getD_mem (by rw [hslen]; exact hi)
    have hp95 : p95val l = s.getD (n * 95 / 100) 0 := by
      rw [p95val, if_pos (by omega)]
    have hp99 : p99val l = s.getD (n * 99 / 100) 0 := by
      rw [p99val, if_pos (by omega)]
    have h9599le : s.getD (n * 95 / 100) 0 ≤ s.getD (n * 99 / 100) 0 :=
      hmono _ _ i9599 i99lt
    have h99max : s.getD (n * 99 / 100) 0 ≤ pymax l := le_pymax_of_mem (hmem _ i99lt)
    rw [hp95, hp99]
    by_cases hpar : n % 2 = 1
    · have hmed : pymedian l = s.getD (n / 2) 0 := by
        simp only [pymedian]
        rw [← hs, hslen, if_pos hpar]
      rw [hmed]
      exact ⟨pymin_le_of_mem (hmem _ hm2), hmono _ _ imed95 i95lt, h9599le, h99max⟩
    · have hmed : pymedian l = (s.getD (n / 2 - 1) 0 + s.getD (n / 2) 0) / 2 := by
        simp only [pymedian]
        rw [← hs, hslen, if_neg hpar]
      have hab : s.getD (n / 2 - 1) 0 ≤ s.getD (n / 2) 0 := hmono _ _ (by omega) hm2
      have hminA : pymin l ≤ s.getD (n / 2 - 1) 0 := pymin_le_of_mem (hmem _ (by omega))
      have hb95 : s.getD (n / 2) 0 ≤ s.getD (n * 95 / 100) 0 := hmono _ _ imed95 i95lt
      rw [hmed]
      refine ⟨by linarith, by linarith, h9599le, h99max⟩

/-- C3: in every aggregate report with at least one successful-request
latency sample the order statistics satisfy `min ≤ median ≤ p95 ≤ p99 ≤ max`
(with `p95`/`p99` the values at index `floor(0.95 n)` / `floor(0.99 n)` of
the ascending-sorted sample), and with exactly one sample all of them equal
that single value. -/
theorem latency_order_statistics :
    ∀ (results : List RequestResult) (config : LoadTestConfig) (dur : ℚ),
      responseTimes results ≠ [] →
      ((reportOf (analyze_load_test_results results config dur)).min_response_time
          ≤ (reportOf (analyze_load_test_results results config dur)).median_response_time ∧
        (reportOf (analyze_load_test_results results config dur)).median_response_time
          ≤ (reportOf (analyze_load_test_results results config dur)).p95_response_time ∧
        (reportOf (analyze_load_test_results results config dur)).p95_response_time
          ≤ (reportOf (analyze_load_test_results results config dur)).p99_response_time ∧
        (reportOf (analyze_load_test_results results config dur)).p99_response_time
          ≤ (reportOf (analyze_load_test_results results config dur)).max_response_time) ∧
      ((responseTimes results).length = 1 →
        (reportOf (analyze_load_test_results results config dur)).median_response_time
            = (responseTimes results).getD 0 0 ∧
          (reportOf (analyze_load_test_results results config dur)).p95_response_time
            = (responseTimes results).getD 0 0 ∧
          (reportOf (analyze_load_test_results results config dur)).p99_response_time
            = (responseTimes results).getD 0 0 ∧
          (reportOf (analyze_load_test_results results config dur)).min_response_time
            = (responseTimes results).getD 0 0 ∧
          (reportOf (analyze_load_test_results results config dur)).max_response_time
            = (responseTimes results).getD 0 0) := by
  intro results config dur hrt
  have hres : results ≠ [] := by
    intro h
    apply hrt
    rw [h]
    rfl
  have hmed : (reportOf (analyze_load_test_results results config dur)).median_response_time
      = pymedian (responseTimes results) := by
    simp [analyze_load_test_results, reportOf, hres, hrt]
  have hp95 : (reportOf (analyze_load_test_results results config dur)).p95_response_time
      = p95val (responseTimes results) := by
    simp [analyze_load_test_results, reportOf, hres, hrt]
  have hp99 : (reportOf (analyze_load_test_results results config dur)).p99_response_time
      = p99val (responseTimes results) := by
    simp [analyze_load_test_results, reportOf, hres, hrt]
  have hmin : (reportOf (analyze_load_test_results results config dur)).min_response_time
      = pymin (responseTimes results) := by
    simp [analyze_load_test_results, reportOf, hres, hrt]
  have hmax : (reportOf (analyze_load_test_results results config dur)).max_response_time
      = pymax (responseTimes results) := by
    simp [analyze_load_test_results, reportOf, hres, hrt]
  rw [hmed, hp95, hp99, hmin, hmax]
  constructor
  · exact stat_chain hrt
  · intro hone
    obtain ⟨x, hx⟩ := List.length_eq_one.mp hone
    rw [hx]
    simpa using stat_single x

/-- Witness for C3 on a single-success batch. -/
theorem latency_order_statistics_witness :
    ((reportOf (analyze_load_test_results [rOkEx] cfgLight 10)).min_response_time
        ≤ (reportOf (analyze_load_test_results [rOkEx] cfgLight 10)).median_response_time ∧
      (reportOf (analyze_load_test_results [rOkEx] cfgLight 10)).median_response_time
        ≤ (reportOf (analyze_load_test_results [rOkEx] cfgLight 10)).p95_response_time ∧
      (reportOf (analyze_load_test_results [rOkEx] cfgLight 10)).p95_response_time
        ≤ (reportOf (analyze_load_test_results [rOkEx] cfgLight 10)).p99_response_time ∧
      (reportOf (analyze_load_test_results [rOkEx] cfgLight 10)).p99_response_time
        ≤ (reportOf (analyze_load_test_results [rOkEx] cfgLight 10)).max_response_time) ∧
    ((responseTimes [rOkEx]).length = 1 →
      (reportOf (analyze_load_test_results [rOkEx] cfgLight 10)).median_response_time
          = (responseTimes [rOkEx]).getD 0 0 ∧
        (reportOf (analyze_load_test_results [rOkEx] cfgLight 10)).p95_response_time
          = (responseTimes [rOkEx]).getD 0 0 ∧
        (reportOf (analyze_load_test_results [rOkEx] cfgLight 10)).p99_response_time
          = (responseTimes [rOkEx]).getD 0 0 ∧
        (reportOf (analyze_load_test_results [rOkEx] cfgLight 10)).min_response_time
          = (responseTimes [rOkEx]).getD 0 0 ∧
        (reportOf (analyze_load_test_results [rOkEx] cfgLight 10)).max_response_time
          = (responseTimes [rOkEx]).getD 0 0) :=
  latency_order_statistics [rOkEx] cfgLight 10 (by decide)

end Flirrt
